import Mathlib

/-!
# Verification of `trail_comparison.js` (`TrailComparisonMask`)

A shallow embedding of the trail-comparison engine: the duck-typed input
normalization (`_convert_to_list_of_trails`), the normalized-to-pixel
coordinate transform (`_xy_norm_to_px`), the scoring loop (`compare`) and
the mask lifecycle (`constructor`, `update_mask_parameters`,
`_generate_mask`).

JavaScript dynamic values that can flow through these functions are
modelled by the inductive type `Js` (numbers and nested arrays).  JS
`undefined` is modelled as `Option.none` at the use sites where it can
appear (out-of-range indexing, missing destructured components), and a
thrown `TypeError` is modelled as `Except.error ()`.  `NaN`-valued
numbers (arising from arithmetic on `undefined`) are modelled as `none`
in `Option ℚ` / `Option ℤ`, with the JS rules that any comparison
against `NaN` is false and arithmetic on `NaN` stays `NaN`.

The actual stroke/blur rasterization runs on the HTML canvas 2D API (an
external collaborator per the spec); it is abstracted as a `DrawFn`
parameter.  The only raster the code itself produces without the canvas
stroke path is the black background read back by `getImageData` when
there is no trail data, which is modelled exactly (`blackImageData`).
-/

namespace TrailComparison

/-- A JavaScript value reachable in the trail-comparison data paths:
a (finite) number or an array of values. -/
inductive Js where
  | num (val : ℚ)
  | arr (elems : List Js)

/-- JS indexing `v[i]` on a non-`undefined` value: indexing a number
yields `undefined` (`none`); indexing an array yields the element or
`undefined` when out of range. -/
def jsIndex : Js → ℕ → Option Js
  | .num _, _ => none
  | .arr l, i => l.get? i

/-- JS property read `v.length` on a non-`undefined` value: `undefined`
(`none`) for a number, the array length for an array. -/
def jsLen : Js → Option ℚ
  | .num _ => none
  | .arr l => some l.length

/-- JS `ToNumber` coercion as it applies to `Js` values (`none` = `NaN`):
a number is itself; an array coerces through its comma-joined string, so
`[]` gives `0`, a one-element array coerces its element, and a
multi-element array gives `NaN`. -/
def toNumber : Js → Option ℚ
  | .num q => some q
  | .arr [] => some 0
  | .arr [v] => toNumber v
  | .arr (_ :: _ :: _) => none

/-- `_convert_to_list_of_trails` (trail_comparison.js lines 205-209):
`is_one_trail = input[0][0].length === undefined`, then either wrap the
input in a singleton list or return it unchanged.  The chained accesses
throw a `TypeError` (modelled `Except.error ()`) whenever `input[0]` or
`input[0][0]` is `undefined` (empty input, or empty first trail). -/
def convert_to_list_of_trails : Js → Except Unit (List Js)
  | .num _ => .error ()
  | .arr l =>
    match l.head? with
    | none => .error ()
    | some first =>
      match jsIndex first 0 with
      | none => .error ()
      | some inner =>
        match jsLen inner with
        | none => .ok [Js.arr l]
        | some _ => .ok l

/-- JS `Array.prototype.flat()` with depth 1: array elements are spliced
in, non-array elements are kept. -/
def jsFlat : List Js → List Js
  | [] => []
  | .arr l :: rest => l ++ jsFlat rest
  | .num q :: rest => .num q :: jsFlat rest

/-- JS `Math.round` on a finite number: half-values round toward
positive infinity, i.e. `⌊q + 1/2⌋`. -/
def jsRound (q : ℚ) : ℤ := ⌊q + 1/2⌋

/-- Destructuring `const [x, y] = p` followed by numeric use of `x` and
`y`: destructuring a number throws (not iterable); destructuring an
array reads elements 0 and 1 (missing ones are `undefined`, i.e. `NaN`
once used numerically, and array components coerce via `toNumber`). -/
def destructPoint : Js → Except Unit (Option ℚ × Option ℚ)
  | .num _ => .error ()
  | .arr l => .ok ((l.get? 0).bind toNumber, (l.get? 1).bind toNumber)

/-- `Math.round(coord * scale)` where the coordinate may be `NaN`
(`Math.round(NaN)` is `NaN`). -/
def scalePx (o : Option ℚ) (scale : ℚ) : Option ℤ :=
  o.map (fun q => jsRound (q * scale))

/-- `_xy_norm_to_px` (trail_comparison.js lines 213-218):
`xy_norm_list.map(([x, y]) => [Math.round(x * (width_px - 1)), Math.round(y * (height_px - 1))])`. -/
def xy_norm_to_px : List Js → ℚ → ℚ → Except Unit (List (Option ℤ × Option ℤ))
  | [], _, _ => .ok []
  | p :: rest, w, h =>
    match destructPoint p with
    | .error e => .error e
    | .ok xy =>
      match xy_norm_to_px rest w h with
      | .error e => .error e
      | .ok restPx => .ok ((scalePx xy.1 (w - 1), scalePx xy.2 (h - 1)) :: restPx)

/-- The mutable state of a `TrailComparisonMask` instance.  `img` models
`this.img` (`null` before the first generation, otherwise the RGBA byte
buffer `this.img.data` as a total index→byte function). -/
structure MaskState where
  w : ℕ
  h : ℕ
  img : Option (ℕ → ℕ)
  mask_value : ℕ
  thickness : Option ℚ
  blur_size : Option ℚ
  trails_xy_norm : List Js

/-- JS `a < 0` where `a` may be `NaN` (every comparison with `NaN` is false). -/
def ltZero : Option ℤ → Bool
  | none => false
  | some a => decide (a < 0)

/-- JS `a >= b` where `a` may be `NaN` (every comparison with `NaN` is false). -/
def geBound (o : Option ℤ) (b : ℤ) : Bool :=
  match o with
  | none => false
  | some a => decide (b ≤ a)

/-- The summation loop of `compare` (trail_comparison.js lines 146-158):
skip points failing `x < 0 || x >= w || y < 0 || y >= h`; otherwise read
`this.img.data[(y * w + x) * 4]` and add it to the running total.  A
`NaN` coordinate passes the bounds check (all comparisons false) and
produces a `NaN` pixel index, whose read is `undefined` and turns the
total into `NaN` (`none`).  Reading `.data` on a `null` `this.img`
throws. -/
def sumPoints (img : Option (ℕ → ℕ)) (w h : ℕ) :
    List (Option ℤ × Option ℤ) → Option ℚ → Except Unit (Option ℚ)
  | [], total => .ok total
  | (x, y) :: rest, total =>
    if ltZero x || geBound x (w : ℤ) || ltZero y || geBound y (h : ℤ) then
      sumPoints img w h rest total
    else
      match img with
      | none => .error ()
      | some data =>
        match x, y with
        | some xv, some yv =>
            sumPoints img w h rest
              (total.map (fun t => t + (data (((yv * (w : ℤ) + xv) * 4).toNat) : ℚ)))
        | _, _ => sumPoints img w h rest none

/-- `compare` (trail_comparison.js lines 133-165): normalize the input
to a list of trails, flatten, map to pixel coordinates, sum the mask
values under the in-bounds points, and return
`(point_total / mask_value) / num_points`.  A zero point count would be
JS `0/0 = NaN` (modelled `none`); it is in fact unreachable whenever the
input normalization succeeds. -/
def compare (st : MaskState) (other_trails_xy_norm : Js) : Except Unit (Option ℚ) :=
  match convert_to_list_of_trails other_trails_xy_norm with
  | .error e => .error e
  | .ok other_list =>
    match xy_norm_to_px (jsFlat other_list) (st.w : ℚ) (st.h : ℚ) with
    | .error e => .error e
    | .ok all_other_xy_px =>
      match sumPoints st.img st.w st.h all_other_xy_px (some 0) with
      | .error e => .error e
      | .ok point_total =>
        let num_points := all_other_xy_px.length
        .ok (if num_points = 0 then none
             else point_total.map (fun t => t / (st.mask_value : ℚ) / (num_points : ℚ)))

/-- The RGBA buffer read back by `getImageData` after filling the canvas
black (`rgb(0,0,0)`, opaque): red/green/blue bytes are 0, alpha bytes
are 255.  Indices at or past `w*h*4` would be `undefined` in JS; they
are never read by `compare` (its bounds check keeps pixel indices below
`w*h*4`), and are mapped to 0 here. -/
def blackImageData (w h : ℕ) : ℕ → ℕ :=
  fun i => if i < w * h * 4 then (if i % 4 = 3 then 255 else 0) else 0

/-- Abstraction of the HTML canvas stroke/blur pipeline used by
`_generate_mask` when there is trail data to draw (an external
collaborator: `ctx.stroke`, `ctx.filter = blur(...)`, screen
compositing).  Arguments: trails, thickness, blur_size, width, height;
result: the RGBA byte buffer. -/
def DrawFn : Type := List Js → Option ℚ → Option ℚ → ℕ → ℕ → (ℕ → ℕ)

/-- `_generate_mask` (trail_comparison.js lines 81-129): paint the black
background; if there is no trail data, store the blank image and return;
otherwise stroke the (blurred and unblurred) trails and store the
result. -/
def generate_mask (draw : DrawFn) (st : MaskState) : MaskState :=
  if st.trails_xy_norm.length = 0 then
    { st with img := some (blackImageData st.w st.h) }
  else
    { st with img := some (draw st.trails_xy_norm st.thickness st.blur_size st.w st.h) }

/-- `update_mask_parameters` (trail_comparison.js lines 53-77).  The
returned `Bool` records whether the `console.warn` diagnostic fired (all
arguments `null`: warn and return without touching any state).
Otherwise update thickness/blur if given, normalize and store the trails
if given (which can throw), then regenerate the mask. -/
def update_mask_parameters (draw : DrawFn) (st : MaskState)
    (trails_xy_norm : Option Js) (thickness blur_size : Option ℚ) :
    Except Unit (MaskState × Bool) :=
  if trails_xy_norm.isNone && thickness.isNone && blur_size.isNone then
    .ok (st, true)
  else
    let st1 : MaskState :=
      { st with
        thickness := match thickness with | some t => some t | none => st.thickness
        blur_size := match blur_size with | some b => some b | none => st.blur_size }
    match trails_xy_norm with
    | none => .ok (generate_mask draw st1, false)
    | some v =>
      match convert_to_list_of_trails v with
      | .error e => .error e
      | .ok l => .ok (generate_mask draw { st1 with trails_xy_norm := l }, false)

/-- The `TrailComparisonMask` constructor (trail_comparison.js lines
26-41): set up the blank state (`img = null`, `_mask_value = 255`, empty
trail list) and delegate to `update_mask_parameters`. -/
def mkTrailComparisonMask (draw : DrawFn) (trails_xy_norm_list : Option Js)
    (mask_width mask_height : ℕ) (thickness blur_size : Option ℚ) :
    Except Unit (MaskState × Bool) :=
  update_mask_parameters draw
    { w := mask_width, h := mask_height, img := none, mask_value := 255,
      thickness := none, blur_size := none, trails_xy_norm := [] }
    trails_xy_norm_list thickness blur_size

/-! ## Well-formed mathematical inputs and their `Js` embeddings -/

/-- A well-formed point `(x, y)` as the JS array `[x, y]`. -/
def embedPoint (q : ℚ × ℚ) : Js := .arr [.num q.1, .num q.2]

/-- A well-formed trail as a JS array of points. -/
def embedTrail (t : List (ℚ × ℚ)) : Js := .arr (t.map embedPoint)

/-- A well-formed trail set as a JS array of trails. -/
def embedTrailSet (ts : List (List (ℚ × ℚ))) : Js := .arr (ts.map embedTrail)

/-! ## Spec-side definitions (restated from the words of the spec, §4.2) -/

/-- The coordinate transform as the spec states it: `px = round(x_norm * (dim - 1))`
with JS rounding. -/
def pxOf (x : ℚ) (dim : ℚ) : ℤ := jsRound (x * (dim - 1))

/-- The in-bounds test as the spec states it: the pixel lies in `[0, w-1] × [0, h-1]`. -/
def inBoundsPx (w h : ℕ) (x y : ℤ) : Bool :=
  decide (0 ≤ x) && decide (x < (w : ℤ)) && decide (0 ≤ y) && decide (y < (h : ℤ))

/-- Restated from the spec: the contribution of one query point — the
raster intensity at its mapped pixel when in bounds, else exactly 0. -/
def spec_contribution (data : ℕ → ℕ) (w h : ℕ) (q : ℚ × ℚ) : ℕ :=
  let px := pxOf q.1 (w : ℚ)
  let py := pxOf q.2 (h : ℚ)
  if inBoundsPx w h px py then data (((py * (w : ℤ) + px) * 4).toNat) else 0

/-- Restated from the spec: final score =
`(running_total / max_intensity) / num_points` with `max_intensity = 255`. -/
def spec_score (data : ℕ → ℕ) (w h : ℕ) (pts : List (ℚ × ℚ)) : ℚ :=
  (((pts.map (spec_contribution data w h)).sum : ℚ) / 255) / (pts.length : ℚ)

/-- A concrete raster byte function used for witnesses. -/
def exData : ℕ → ℕ := fun _ => 100

/-- A concrete mask state used for witnesses: a constructed 4×4 mask. -/
def exMask : MaskState :=
  { w := 4, h := 4, img := some exData, mask_value := 255,
    thickness := some 64, blur_size := some 32, trails_xy_norm := [] }

/-- A trivial draw function (all-zero buffer) used for closed witnesses. -/
def trivialDraw : DrawFn := fun _ _ _ _ _ => fun _ => 0

/-! ## Bridging lemmas: evaluating the embedding on well-formed inputs -/

/-- On a well-formed trail set whose first trail is non-empty, the shape
probe sees a point array at position `[0][0]` and keeps the list as is. -/
lemma convert_embedTrailSet (p : ℚ × ℚ) (ps : List (ℚ × ℚ)) (rest : List (List (ℚ × ℚ))) :
    convert_to_list_of_trails (embedTrailSet ((p :: ps) :: rest)) =
      .ok (((p :: ps) :: rest).map embedTrail) := rfl

/-- On a bare non-empty trail, the shape probe sees a number at position
`[0][0]` (its `length` is `undefined`) and wraps the trail in a
singleton list. -/
lemma convert_embedTrail (p : ℚ × ℚ) (ps : List (ℚ × ℚ)) :
    convert_to_list_of_trails (embedTrail (p :: ps)) = .ok [embedTrail (p :: ps)] := rfl

/-- Flattening the embedded trails is the embedding of the joined point
lists. -/
lemma jsFlat_map_embedTrail (ts : List (List (ℚ × ℚ))) :
    jsFlat (ts.map embedTrail) = ts.flatten.map embedPoint := by
  induction ts with
  | nil => rfl
  | cons t rest ih => simp [jsFlat, embedTrail, List.flatten, ih]

/-- On embedded (well-formed) points, the pixel-mapping loop never
throws and computes exactly the spec transform in both coordinates. -/
lemma xy_norm_to_px_map_embedPoint (pts : List (ℚ × ℚ)) (w h : ℚ) :
    xy_norm_to_px (pts.map embedPoint) w h =
      .ok (pts.map (fun q => (some (pxOf q.1 w), some (pxOf q.2 h)))) := by
  induction pts with
  | nil => rfl
  | cons q rest ih =>
    have hd : destructPoint (embedPoint q) = .ok (some q.1, some q.2) := rfl
    simp only [List.map_cons, xy_norm_to_px, hd, ih]
    rfl

/-- The summation loop on fully numeric pixel coordinates accumulates
exactly the spec contributions. -/
lemma sumPoints_map_spec (data : ℕ → ℕ) (w h : ℕ) (pts : List (ℚ × ℚ)) (a : ℚ) :
    sumPoints (some data) w h
        (pts.map (fun q => (some (pxOf q.1 (w : ℚ)), some (pxOf q.2 (h : ℚ))))) (some a) =
      .ok (some (a + ((pts.map (spec_contribution data w h)).sum : ℚ))) := by
  induction pts generalizing a with
  | nil => simp [sumPoints]
  | cons q rest ih =>
    have hpx : pxOf q.1 (w : ℚ) = pxOf q.1 (w : ℚ) := rfl
    by_cases hb : 0 ≤ pxOf q.1 (w : ℚ) ∧ pxOf q.1 (w : ℚ) < (w : ℤ) ∧
        0 ≤ pxOf q.2 (h : ℚ) ∧ pxOf q.2 (h : ℚ) < (h : ℤ)
    · have hg : (ltZero (some (pxOf q.1 (w : ℚ))) || geBound (some (pxOf q.1 (w : ℚ))) (w : ℤ) ||
          ltZero (some (pxOf q.2 (h : ℚ))) || geBound (some (pxOf q.2 (h : ℚ))) (h : ℤ)) = false := by
        simp only [ltZero, geBound, Bool.or_eq_false_iff, decide_eq_false_iff_not, not_lt, not_le]
        omega
      have hbx : inBoundsPx w h (pxOf q.1 (w : ℚ)) (pxOf q.2 (h : ℚ)) = true := by
        simp only [inBoundsPx, Bool.and_eq_true, decide_eq_true_eq]
        omega
      have hc : spec_contribution data w h q =
          data (((pxOf q.2 (h : ℚ) * (w : ℤ) + pxOf q.1 (w : ℚ)) * 4).toNat) := by
        simp only [spec_contribution, hbx, if_true]
      simp only [List.map_cons, sumPoints, hg, Bool.false_eq_true, if_false, Option.map_some']
      rw [ih, hc]
      simp only [List.map_cons, List.sum_cons]
      congr 1
      push_cast
      ring_nf
    · have hg : (ltZero (some (pxOf q.1 (w : ℚ))) || geBound (some (pxOf q.1 (w : ℚ))) (w : ℤ) ||
          ltZero (some (pxOf q.2 (h : ℚ))) || geBound (some (pxOf q.2 (h : ℚ))) (h : ℤ)) = true := by
        simp only [ltZero, geBound, Bool.or_eq_true, decide_eq_true_eq]
        omega
      have hbx : inBoundsPx w h (pxOf q.1 (w : ℚ)) (pxOf q.2 (h : ℚ)) = false := by
        apply Bool.eq_false_iff.mpr
        simp only [ne_eq, inBoundsPx, Bool.and_eq_true, decide_eq_true_eq]
        omega
      have hc : spec_contribution data w h q = 0 := by
        simp only [spec_contribution, hbx, Bool.false_eq_true, if_false]
      simp only [List.map_cons, sumPoints, hg, if_true]
      rw [ih]
      simp only [List.map_cons, List.sum_cons, hc]
      norm_num

/-- The central bridge: on a well-formed non-empty trail set, `compare`
never throws and returns exactly
`(sum of in-bounds sampled intensities / mask_value) / number of points`. -/
lemma compare_embed_spec (st : MaskState) (data : ℕ → ℕ) (ts : List (List (ℚ × ℚ)))
    (himg : st.img = some data) (h1 : ts ≠ []) (h2 : ∀ t ∈ ts, t ≠ []) :
    compare st (embedTrailSet ts) =
      .ok (some ((((ts.flatten.map (spec_contribution data st.w st.h)).sum : ℚ) /
        (st.mask_value : ℚ)) / (ts.flatten.length : ℚ))) := by
  obtain ⟨t, rest, rfl⟩ : ∃ t rest, ts = t :: rest := by
    cases ts with
    | nil => exact absurd rfl h1
    | cons t rest => exact ⟨t, rest, rfl⟩
  obtain ⟨p, ps, rfl⟩ : ∃ p ps, t = p :: ps := by
    have ht := h2 t (List.mem_cons_self t rest)
    cases t with
    | nil => exact absurd rfl ht
    | cons p ps => exact ⟨p, ps, rfl⟩
  have hlen : ((p :: ps) :: rest).flatten.length ≠ 0 := by
    simp [List.flatten]
  simp only [compare, convert_embedTrailSet, jsFlat_map_embedTrail,
    xy_norm_to_px_map_embedPoint, himg, sumPoints_map_spec, List.length_map, hlen,
    if_false, Option.map_some', zero_add]

/-- The contribution of each point is at most 255 when every raster byte
is at most 255, so the total is at most `255 * num_points`. -/
lemma sum_spec_contribution_le (data : ℕ → ℕ) (w h : ℕ) (hdata : ∀ i, data i ≤ 255)
    (pts : List (ℚ × ℚ)) :
    (pts.map (spec_contribution data w h)).sum ≤ 255 * pts.length := by
  induction pts with
  | nil => simp
  | cons q rest ih =>
    have hq : spec_contribution data w h q ≤ 255 := by
      simp only [spec_contribution]
      split
      · exact hdata _
      · omega
    simp only [List.map_cons, List.sum_cons, List.length_cons]
    omega

/-- The transform sends normalized 0 to pixel column/row 0. -/
lemma pxOf_zero (d : ℚ) : pxOf 0 d = 0 := by
  simp only [pxOf, jsRound, zero_mul, zero_add]
  norm_num [Int.floor_eq_zero_iff]

/-- The transform sends normalized 1 to the last pixel column/row. -/
lemma pxOf_one (d : ℕ) : pxOf 1 (d : ℚ) = (d : ℤ) - 1 := by
  simp only [pxOf, jsRound, one_mul]
  have heq : ((d : ℚ) - 1 + 1/2) = (1/2 : ℚ) + ((d : ℤ) - 1 : ℤ) := by push_cast; ring
  rw [heq, Int.floor_add_int]
  norm_num [Int.floor_eq_zero_iff]

/-- For a normalized coordinate in `[0, 1]` and a dimension of at least
one pixel, the mapped pixel lies in the usable range `[0, dim - 1]`. -/
lemma pxOf_mem_range (x : ℚ) (d : ℕ) (hd : 1 ≤ d) (h0 : 0 ≤ x) (h1 : x ≤ 1) :
    0 ≤ pxOf x (d : ℚ) ∧ pxOf x (d : ℚ) ≤ (d : ℤ) - 1 := by
  simp only [pxOf, jsRound]
  have hd1 : (1 : ℚ) ≤ (d : ℚ) := by exact_mod_cast hd
  have hnn : 0 ≤ x * ((d : ℚ) - 1) := mul_nonneg h0 (by linarith)
  have hub : x * ((d : ℚ) - 1) ≤ (d : ℚ) - 1 := by nlinarith
  constructor
  · apply Int.le_floor.mpr
    push_cast
    linarith
  · have : ⌊x * ((d : ℚ) - 1) + 1/2⌋ < (d : ℤ) := by
      apply Int.floor_lt.mpr
      push_cast
      linarith
    omega

/-! ## Claim theorems -/

/-- C1: For every well-formed query trail set with at least one point
(spec well-formedness: at least one trail, every trail non-empty) and
every raster, `compare` returns exactly the sum of the raster intensity
sampled at each in-bounds mapped query point, divided by the max
intensity 255, divided by the total number of query points; a mapped
point outside `[0, w-1] × [0, h-1]` contributes 0 to the sum but still
counts in the denominator.  This is `spec_score`, restated from the
words of the spec. -/
theorem compare_returns_spec_score (st : MaskState) (data : ℕ → ℕ)
    (ts : List (List (ℚ × ℚ))) (himg : st.img = some data)
    (hmv : st.mask_value = 255) (h1 : ts ≠ []) (h2 : ∀ t ∈ ts, t ≠ []) :
    compare st (embedTrailSet ts) = .ok (some (spec_score data st.w st.h ts.flatten)) := by
  rw [compare_embed_spec st data ts himg h1 h2, hmv, spec_score]
  norm_num

/-- Witness for C1 at a concrete mask and a concrete two-point query. -/
theorem compare_returns_spec_score_witness :
    (exMask.img = some exData ∧ exMask.mask_value = 255 ∧
      ([[((0 : ℚ), (0 : ℚ)), (1, 1)]] : List (List (ℚ × ℚ))) ≠ [] ∧
      (∀ t ∈ ([[((0 : ℚ), (0 : ℚ)), (1, 1)]] : List (List (ℚ × ℚ))), t ≠ [])) ∧
    compare exMask (embedTrailSet [[(0, 0), (1, 1)]]) =
      .ok (some (spec_score exData exMask.w exMask.h
        ([[((0 : ℚ), (0 : ℚ)), (1, 1)]] : List (List (ℚ × ℚ))).flatten)) :=
  ⟨⟨rfl, rfl, by simp, by simp⟩,
    compare_returns_spec_score exMask exData [[(0, 0), (1, 1)]] rfl rfl (by simp) (by simp)⟩

/-- C2: For every query whose total point count is zero — the empty list
or a trail set whose trails are all empty — `compare` fails (the shape
probe `input[0][0]` throws, modelled as the `InvalidInput` failure) and
never returns a numeric score. -/
theorem compare_zero_points_fails (st : MaskState) (ts : List Js)
    (h : ∀ t ∈ ts, t = Js.arr []) :
    compare st (Js.arr ts) = .error () := by
  cases ts with
  | nil => rfl
  | cons t rest =>
    have ht : t = Js.arr [] := h t (List.mem_cons_self t rest)
    subst ht
    rfl

/-- Witness for C2: the literal empty query. -/
theorem compare_zero_points_fails_witness :
    (∀ t ∈ ([] : List Js), t = Js.arr []) ∧ compare exMask (Js.arr []) = .error () :=
  ⟨by simp, compare_zero_points_fails exMask [] (by simp)⟩

/-- C3 (code-bug evidence): constructing a mask from an empty trail set
(zero trails, or a single empty trail), or updating with one, throws in
the `[0][0]` shape probe instead of producing the all-zero raster the
spec promises.  The blank-raster branch of `_generate_mask` is reachable
only while the stored trail list is empty — e.g. a `null` trails
argument at construction — and there it does produce the black
(red-channel-zero) `getImageData` buffer, as the final conjunct shows. -/
theorem construct_with_empty_trailset_throws :
    mkTrailComparisonMask trivialDraw (some (Js.arr [])) 512 512 (some 64) (some 32) =
      .error () ∧
    mkTrailComparisonMask trivialDraw (some (Js.arr [Js.arr []])) 512 512 (some 64) (some 32) =
      .error () ∧
    update_mask_parameters trivialDraw exMask (some (Js.arr [])) none none = .error () ∧
    mkTrailComparisonMask trivialDraw none 512 512 (some 64) (some 32) =
      .ok ({ w := 512, h := 512, img := some (blackImageData 512 512), mask_value := 255,
             thickness := some 64, blur_size := some 32, trails_xy_norm := [] }, false) :=
  ⟨rfl, rfl, rfl, rfl⟩

/-- C4: For every non-empty well-formed query trail set and every raster
whose samples lie in `[0, 255]`, the returned score satisfies
`0 ≤ score ≤ 1`; and when every mapped query point falls out of bounds
the score is exactly 0. -/
theorem compare_score_bounds (st : MaskState) (data : ℕ → ℕ)
    (ts : List (List (ℚ × ℚ))) (himg : st.img = some data)
    (hmv : st.mask_value = 255) (h1 : ts ≠ []) (h2 : ∀ t ∈ ts, t ≠ [])
    (hdata : ∀ i, data i ≤ 255) :
    (∃ s : ℚ, compare st (embedTrailSet ts) = .ok (some s) ∧ 0 ≤ s ∧ s ≤ 1) ∧
    ((∀ q ∈ ts.flatten,
        inBoundsPx st.w st.h (pxOf q.1 (st.w : ℚ)) (pxOf q.2 (st.h : ℚ)) = false) →
      compare st (embedTrailSet ts) = .ok (some 0)) := by
  have hb := compare_embed_spec st data ts himg h1 h2
  constructor
  · refine ⟨_, hb, ?_, ?_⟩
    · positivity
    · rw [hmv]
      have hsum := sum_spec_contribution_le data st.w st.h hdata ts.flatten
      rw [div_div]
      apply div_le_one_of_le₀
      · exact_mod_cast hsum
      · positivity
  · intro hoob
    rw [hb]
    have hz : (ts.flatten.map (spec_contribution data st.w st.h)).sum = 0 := by
      apply List.sum_eq_zero
      intro v hv
      obtain ⟨q, hq, rfl⟩ := List.mem_map.mp hv
      simp [spec_contribution, hoob q hq]
    rw [hz]
    norm_num

/-- Witness for C4: a query whose single point `(-1, -1)` maps outside
the raster, scoring exactly 0 (and in `[0, 1]`). -/
theorem compare_score_bounds_witness :
    (exMask.img = some exData ∧ exMask.mask_value = 255 ∧
      ([[((-1 : ℚ), (-1 : ℚ))]] : List (List (ℚ × ℚ))) ≠ [] ∧
      (∀ t ∈ ([[((-1 : ℚ), (-1 : ℚ))]] : List (List (ℚ × ℚ))), t ≠ []) ∧
      (∀ i, exData i ≤ 255)) ∧
    ((∃ s : ℚ, compare exMask (embedTrailSet [[(-1, -1)]]) = .ok (some s) ∧ 0 ≤ s ∧ s ≤ 1) ∧
     ((∀ q ∈ ([[((-1 : ℚ), (-1 : ℚ))]] : List (List (ℚ × ℚ))).flatten,
        inBoundsPx exMask.w exMask.h (pxOf q.1 (exMask.w : ℚ)) (pxOf q.2 (exMask.h : ℚ)) = false) →
      compare exMask (embedTrailSet [[(-1, -1)]]) = .ok (some 0))) := by
  refine ⟨⟨rfl, rfl, by simp, by simp, fun i => by norm_num [exData]⟩, ?_⟩
  exact compare_score_bounds exMask exData [[(-1, -1)]] rfl rfl (by simp) (by simp)
    (fun i => by norm_num [exData])

/-- C5: The normalized-to-pixel transform used by the rasterizer and the
scorer maps `(x, y)` to `(round(x * (w - 1)), round(y * (h - 1)))`, so
normalized 0 lands on pixel 0 and normalized 1 lands on pixel `dim - 1`,
and any coordinate in `[0, 1]` lands in the usable range `[0, dim - 1]`. -/
theorem xy_norm_to_px_is_spec_transform (pts : List (ℚ × ℚ)) (w h : ℕ)
    (hw : 1 ≤ w) (hh : 1 ≤ h) :
    xy_norm_to_px (pts.map embedPoint) (w : ℚ) (h : ℚ) =
      .ok (pts.map (fun q => (some (pxOf q.1 (w : ℚ)), some (pxOf q.2 (h : ℚ))))) ∧
    pxOf 0 (w : ℚ) = 0 ∧ pxOf 1 (w : ℚ) = (w : ℤ) - 1 ∧
    pxOf 0 (h : ℚ) = 0 ∧ pxOf 1 (h : ℚ) = (h : ℤ) - 1 ∧
    (∀ x : ℚ, 0 ≤ x → x ≤ 1 → 0 ≤ pxOf x (w : ℚ) ∧ pxOf x (w : ℚ) ≤ (w : ℤ) - 1) ∧
    (∀ y : ℚ, 0 ≤ y → y ≤ 1 → 0 ≤ pxOf y (h : ℚ) ∧ pxOf y (h : ℚ) ≤ (h : ℤ) - 1) :=
  ⟨xy_norm_to_px_map_embedPoint pts (w : ℚ) (h : ℚ), pxOf_zero _, pxOf_one w,
    pxOf_zero _, pxOf_one h,
    fun x h0 h1 => pxOf_mem_range x w hw h0 h1,
    fun y h0 h1 => pxOf_mem_range y h hh h0 h1⟩

/-- Witness for C5 at two concrete points and a 4×4 raster. -/
theorem xy_norm_to_px_is_spec_transform_witness :
    ((1 : ℕ) ≤ 4 ∧ (1 : ℕ) ≤ 4) ∧
    (xy_norm_to_px (([((0 : ℚ), (0 : ℚ)), (1, 1)]).map embedPoint) ((4 : ℕ) : ℚ) ((4 : ℕ) : ℚ) =
      .ok (([((0 : ℚ), (0 : ℚ)), (1, 1)]).map
        (fun q => (some (pxOf q.1 ((4 : ℕ) : ℚ)), some (pxOf q.2 ((4 : ℕ) : ℚ))))) ∧
    pxOf 0 ((4 : ℕ) : ℚ) = 0 ∧ pxOf 1 ((4 : ℕ) : ℚ) = ((4 : ℕ) : ℤ) - 1 ∧
    pxOf 0 ((4 : ℕ) : ℚ) = 0 ∧ pxOf 1 ((4 : ℕ) : ℚ) = ((4 : ℕ) : ℤ) - 1 ∧
    (∀ x : ℚ, 0 ≤ x → x ≤ 1 →
      0 ≤ pxOf x ((4 : ℕ) : ℚ) ∧ pxOf x ((4 : ℕ) : ℚ) ≤ ((4 : ℕ) : ℤ) - 1) ∧
    (∀ y : ℚ, 0 ≤ y → y ≤ 1 →
      0 ≤ pxOf y ((4 : ℕ) : ℚ) ∧ pxOf y ((4 : ℕ) : ℚ) ≤ ((4 : ℕ) : ℤ) - 1)) :=
  ⟨⟨by decide, by decide⟩,
    xy_norm_to_px_is_spec_transform [(0, 0), (1, 1)] 4 4 (by decide) (by decide)⟩

/-- C6: For a fixed raster, two well-formed non-empty query trail sets
whose flattened point lists are permutations of one another receive the
same score: trail boundaries and point order do not affect the
mean-aggregate. -/
theorem compare_flatten_perm_invariant (st : MaskState) (data : ℕ → ℕ)
    (ts₁ ts₂ : List (List (ℚ × ℚ))) (himg : st.img = some data)
    (h1a : ts₁ ≠ []) (h2a : ∀ t ∈ ts₁, t ≠ [])
    (h1b : ts₂ ≠ []) (h2b : ∀ t ∈ ts₂, t ≠ [])
    (hperm : ts₁.flatten.Perm ts₂.flatten) :
    compare st (embedTrailSet ts₁) = compare st (embedTrailSet ts₂) := by
  rw [compare_embed_spec st data ts₁ himg h1a h2a,
      compare_embed_spec st data ts₂ himg h1b h2b,
      (hperm.map (spec_contribution data st.w st.h)).sum_eq, hperm.length_eq]

/-- Witness for C6: swapping two one-point segments. -/
theorem compare_flatten_perm_invariant_witness :
    (exMask.img = some exData ∧
      ([[((0 : ℚ), (0 : ℚ))], [(1, 1)]] : List (List (ℚ × ℚ))) ≠ [] ∧
      (∀ t ∈ ([[((0 : ℚ), (0 : ℚ))], [(1, 1)]] : List (List (ℚ × ℚ))), t ≠ []) ∧
      ([[((1 : ℚ), (1 : ℚ))], [(0, 0)]] : List (List (ℚ × ℚ))) ≠ [] ∧
      (∀ t ∈ ([[((1 : ℚ), (1 : ℚ))], [(0, 0)]] : List (List (ℚ × ℚ))), t ≠ []) ∧
      ([[((0 : ℚ), (0 : ℚ))], [(1, 1)]] : List (List (ℚ × ℚ))).flatten.Perm
        ([[((1 : ℚ), (1 : ℚ))], [(0, 0)]] : List (List (ℚ × ℚ))).flatten) ∧
    compare exMask (embedTrailSet [[(0, 0)], [(1, 1)]]) =
      compare exMask (embedTrailSet [[(1, 1)], [(0, 0)]]) := by
  refine ⟨⟨rfl, by simp, by simp, by simp, by simp, by decide⟩, ?_⟩
  exact compare_flatten_perm_invariant exMask exData [[(0, 0)], [(1, 1)]] [[(1, 1)], [(0, 0)]]
    rfl (by simp) (by simp) (by simp) (by simp) (by decide)

/-- C7: A bare non-empty trail and the singleton trail set containing it
are interchangeable at the public interface: `compare` gives the same
result, and mask construction produces the same state. -/
theorem bare_trail_equals_singleton_trailset (st : MaskState) (draw : DrawFn)
    (wd hd : ℕ) (th bl : Option ℚ) (t : List (ℚ × ℚ)) (ht : t ≠ []) :
    compare st (embedTrail t) = compare st (embedTrailSet [t]) ∧
    mkTrailComparisonMask draw (some (embedTrail t)) wd hd th bl =
      mkTrailComparisonMask draw (some (embedTrailSet [t])) wd hd th bl := by
  obtain ⟨p, ps, rfl⟩ : ∃ p ps, t = p :: ps := by
    cases t with
    | nil => exact absurd rfl ht
    | cons p ps => exact ⟨p, ps, rfl⟩
  have hc1 : convert_to_list_of_trails (embedTrail (p :: ps)) = .ok [embedTrail (p :: ps)] :=
    convert_embedTrail p ps
  have hc2 : convert_to_list_of_trails (embedTrailSet [p :: ps]) =
      .ok [embedTrail (p :: ps)] := rfl
  constructor
  · simp only [compare, hc1, hc2]
  · simp [mkTrailComparisonMask, update_mask_parameters, hc1, hc2]

/-- Witness for C7 at a concrete one-point trail. -/
theorem bare_trail_equals_singleton_trailset_witness :
    (([((0 : ℚ), (0 : ℚ))] : List (ℚ × ℚ)) ≠ []) ∧
    (compare exMask (embedTrail [(0, 0)]) = compare exMask (embedTrailSet [[(0, 0)]]) ∧
     mkTrailComparisonMask trivialDraw (some (embedTrail [(0, 0)])) 512 512 (some 64) (some 32) =
       mkTrailComparisonMask trivialDraw (some (embedTrailSet [[(0, 0)]])) 512 512
         (some 64) (some 32)) :=
  ⟨by simp,
    bare_trail_equals_singleton_trailset exMask trivialDraw 512 512 (some 64) (some 32)
      [(0, 0)] (by simp)⟩

/-- Shared helper for C8: a query whose only point is `[x]` (missing its
y coordinate) makes `compare` return `NaN` (`none`) without any error,
provided the x coordinate maps in-bounds: the `NaN` y coordinate passes
the bounds check (all `NaN` comparisons are false), the pixel index is
`NaN`, the read is `undefined`, and the running total becomes `NaN`. -/
lemma compare_missing_y_nan (st : MaskState) (data : ℕ → ℕ) (x : ℚ)
    (himg : st.img = some data)
    (hx0 : 0 ≤ pxOf x (st.w : ℚ)) (hxw : pxOf x (st.w : ℚ) < (st.w : ℤ)) :
    compare st (Js.arr [Js.arr [Js.arr [Js.num x]]]) = .ok none := by
  have hc : convert_to_list_of_trails (Js.arr [Js.arr [Js.arr [Js.num x]]]) =
      .ok [Js.arr [Js.arr [Js.num x]]] := rfl
  have hflat : jsFlat [Js.arr [Js.arr [Js.num x]]] = [Js.arr [Js.num x]] := rfl
  have hpx : xy_norm_to_px [Js.arr [Js.num x]] (st.w : ℚ) (st.h : ℚ) =
      .ok [(some (pxOf x (st.w : ℚ)), none)] := rfl
  have h1 : ltZero (some (pxOf x (st.w : ℚ))) = false := by
    simp only [ltZero, decide_eq_false_iff_not, not_lt]
    exact hx0
  have h2 : geBound (some (pxOf x (st.w : ℚ))) (st.w : ℤ) = false := by
    simp only [geBound, decide_eq_false_iff_not, not_le]
    exact hxw
  have h3 : ltZero (none : Option ℤ) = false := rfl
  have h4 : geBound (none : Option ℤ) (st.h : ℤ) = false := rfl
  have hsum : sumPoints st.img st.w st.h [(some (pxOf x (st.w : ℚ)), none)] (some 0) =
      .ok none := by
    rw [himg]
    simp only [sumPoints, h1, h2, h3, h4, Bool.or_self, Bool.or_false, Bool.false_eq_true,
      if_false]
  simp only [compare, hc, hflat, hpx, hsum]
  rfl

/-- C8 counterexample: scoring the malformed query `[[[0.5]]]` — its
only point is missing the y coordinate — does not fail with any error:
`compare` silently returns JS `NaN` (modelled `none`), refuting the
claim that malformed trail data is surfaced as an `InvalidInput`
failure. -/
theorem compare_malformed_point_silently_returns_nan :
    compare exMask (Js.arr [Js.arr [Js.arr [Js.num (1/2)]]]) = .ok none :=
  compare_missing_y_nan exMask exData (1/2) rfl
    (by norm_num [pxOf, jsRound, exMask]) (by norm_num [pxOf, jsRound, exMask])

/-- C8 (amended): queries whose malformedness breaks the shape probe or
point destructuring do throw, but a point missing its y coordinate is
not rejected: whenever its x coordinate maps in-bounds, `compare`
silently returns `NaN` (a non-numeric score) instead of failing. -/
theorem compare_missing_coordinate_gives_nan (st : MaskState) (data : ℕ → ℕ) (x : ℚ)
    (himg : st.img = some data)
    (hx0 : 0 ≤ pxOf x (st.w : ℚ)) (hxw : pxOf x (st.w : ℚ) < (st.w : ℤ)) :
    compare st (Js.arr [Js.arr [Js.arr [Js.num x]]]) = .ok none :=
  compare_missing_y_nan st data x himg hx0 hxw

/-- Witness for the amended C8 at `x = 1/4` on the concrete 4×4 mask. -/
theorem compare_missing_coordinate_gives_nan_witness :
    (exMask.img = some exData ∧ 0 ≤ pxOf (1/4) (exMask.w : ℚ) ∧
      pxOf (1/4) (exMask.w : ℚ) < (exMask.w : ℤ)) ∧
    compare exMask (Js.arr [Js.arr [Js.arr [Js.num (1/4)]]]) = .ok none :=
  ⟨⟨rfl, by norm_num [pxOf, jsRound, exMask], by norm_num [pxOf, jsRound, exMask]⟩,
    compare_missing_coordinate_gives_nan exMask exData (1/4) rfl
      (by norm_num [pxOf, jsRound, exMask]) (by norm_num [pxOf, jsRound, exMask])⟩

/-- C9: Updating with all three arguments null leaves the whole mask
state unchanged — no trail, thickness, blur or raster change, and no
regeneration — while the `console.warn` diagnostic fires (the `true`
flag). -/
theorem update_all_null_is_diagnosed_noop (draw : DrawFn) (st : MaskState) :
    update_mask_parameters draw st none none none = .ok (st, true) := rfl

/-- C10: The shape probe reads only element `[0][0]`, so every public
operation that normalizes its input — `compare`, update with trails, and
the constructor — throws whenever the input has no first trail or an
empty first trail, even when the remaining trails are valid. -/
theorem empty_first_trail_throws_everywhere (st : MaskState) (draw : DrawFn)
    (rest : List Js) (wd hd : ℕ) (th bl : Option ℚ) :
    compare st (Js.arr (Js.arr [] :: rest)) = .error () ∧
    update_mask_parameters draw st (some (Js.arr (Js.arr [] :: rest))) th bl = .error () ∧
    mkTrailComparisonMask draw (some (Js.arr (Js.arr [] :: rest))) wd hd th bl = .error () ∧
    compare st (Js.arr []) = .error () ∧
    update_mask_parameters draw st (some (Js.arr [])) th bl = .error () ∧
    mkTrailComparisonMask draw (some (Js.arr [])) wd hd th bl = .error () :=
  ⟨rfl, rfl, rfl, rfl, rfl, rfl⟩

end TrailComparison
